import Mathlib

/-!
Verification of the defense-dashboard data pipeline.

A shallow embedding of the data-normalization pipeline of the repository
(`src/data_sources.py` and `src/app_readiness_dashboard.py`) together with
proofs settling the frozen claims about it.

Modelling conventions:
* a pandas cell is a `Cell`: missing (`None`/`NaN` are conflated, since
  `dropna`, `groupby` and `sum` treat them alike), an integer, a float
  (modelled as a rational), or a string;
* JSON values returned by HTTP APIs are `J`;
* Python exceptions are `PyErr`; a function that can raise returns
  `Except PyErr _`, and a `try/except` in the source becomes a `match` on
  that result;
* network and file fetches are abstracted into an explicit argument holding
  the fetch's outcome (`Except PyErr _`), since the embedding cannot
  perform I/O; everything after the fetch is translated from the source.
-/

/-- A pandas cell value.  `Cell.null` stands for both Python `None` and
float `NaN` (pandas' missing-data operations treat them identically).
Floats are modelled as rationals. -/
inductive Cell where
  | null
  | int (n : Int)
  | rat (q : ℚ)
  | str (s : String)
deriving DecidableEq, Repr

/-- Python exception classes that the modelled code can raise. -/
inductive PyErr where
  | netError
  | keyError
  | typeError
  | valueError
  | attributeError
  | indexError
  | assertionError
deriving DecidableEq, Repr

/-- A JSON value (the shape of an HTTP API response body). -/
inductive J where
  | null
  | bool (b : Bool)
  | num (q : ℚ)
  | str (s : String)
  | arr (xs : List J)
  | obj (fields : List (String × J))

/-- Numeric value of a cell, when it holds one (`int` or `rat`). -/
def Cell.numVal : Cell → Option ℚ
  | .int n => some (n : ℚ)
  | .rat q => some q
  | _ => none

/-- Value of a run of decimal digits. -/
def digitsVal (cs : List Char) : Nat :=
  cs.foldl (fun a c => a * 10 + (c.toNat - 48)) 0

/-- Strip leading and trailing whitespace from a character list.
(The embedding implements string primitives over the character list so
that every definition reduces by computation inside proofs; Lean's
byte-position-based `String` primitives do not.) -/
def charTrim (cs : List Char) : List Char :=
  ((cs.dropWhile Char.isWhitespace).reverse.dropWhile
    Char.isWhitespace).reverse

/-- Python `s.strip()`. -/
def strTrim (s : String) : String := String.mk (charTrim s.toList)

/-- Python `s.startswith(p)`. -/
def strStartsWith (s p : String) : Bool :=
  p.toList.isPrefixOf s.toList

/-- Python `s.lower()`. -/
def strToLower (s : String) : String :=
  String.mk (s.toList.map Char.toLower)

/-- Parse a decimal number string the way `pandas.to_numeric` /
Python `float()` accept plain decimals: optional surrounding whitespace,
optional sign, digits with an optional fractional part.  Returns `none`
when the string is not such a number (scientific notation is not modelled;
no claim depends on it). -/
def parseRat (s : String) : Option ℚ :=
  let cs := charTrim s.toList
  let (sgn, body) :=
    match cs with
    | '-' :: t => ((-1 : ℚ), t)
    | '+' :: t => ((1 : ℚ), t)
    | t => ((1 : ℚ), t)
  let intPart := body.takeWhile (fun c => c ≠ '.')
  match body.drop intPart.length with
  | [] =>
      if !intPart.isEmpty && intPart.all Char.isDigit then
        some (sgn * (digitsVal intPart : ℚ))
      else none
  | _ :: frac =>
      if (!intPart.isEmpty || !frac.isEmpty) && intPart.all Char.isDigit &&
          frac.all Char.isDigit then
        some (sgn * ((digitsVal intPart : ℚ) +
          (digitsVal frac : ℚ) / ((10 : ℚ) ^ frac.length)))
      else none

/-- Model of `pd.to_numeric(x, errors="coerce")` on one cell: numbers pass through,
parseable strings become numbers (integral ones as integers), everything
else becomes missing. -/
def toNumericCell : Cell → Cell
  | .null => .null
  | .int n => .int n
  | .rat q => .rat q
  | .str s =>
      match parseRat s with
      | some q => if q.den = 1 then .int q.num else .rat q
      | none => .null

/-- Model of `.astype("Int64")` on one already-`to_numeric`-coerced cell: missing
stays missing, integers stay, a non-integral float raises `TypeError`
("cannot safely cast"), as does a remaining object value. -/
def astypeInt64 : Cell → Except PyErr Cell
  | .null => .ok .null
  | .int n => .ok (.int n)
  | .rat q => if q.den = 1 then .ok (.int q.num) else .error .typeError
  | .str _ => .error .typeError

/-- Python `int(x)` truncates a float toward zero. -/
def truncRat (q : ℚ) : Int :=
  if 0 ≤ q then ⌊q⌋ else ⌈q⌉

/-- Python `int(x)` on a JSON scalar: numbers truncate toward zero,
strings must be (optionally signed) integer literals, booleans are 0/1;
anything else is a `TypeError`, an unparseable string a `ValueError`. -/
def pyInt : J → Except PyErr Int
  | .num q => .ok (truncRat q)
  | .bool b => .ok (if b then 1 else 0)
  | .str s =>
      let cs := charTrim s.toList
      let (sgn, ds) :=
        match cs with
        | '-' :: t => ((-1 : Int), t)
        | '+' :: t => ((1 : Int), t)
        | t => ((1 : Int), t)
      if !ds.isEmpty && ds.all Char.isDigit then .ok (sgn * digitsVal ds)
      else .error .valueError
  | _ => .error .typeError

/-- Python `float(x)` on a JSON scalar. -/
def pyFloat : J → Except PyErr ℚ
  | .num q => .ok q
  | .bool b => .ok (if b then 1 else 0)
  | .str s =>
      match parseRat s with
      | some q => .ok q
      | none => .error .valueError
  | _ => .error .typeError

/-- Python truthiness of a JSON value (`x or default` uses this). -/
def jFalsy : J → Bool
  | .null => true
  | .bool b => !b
  | .num q => q = 0
  | .str s => s.isEmpty
  | .arr xs => xs.isEmpty
  | .obj fs => fs.isEmpty

/-- Dictionary lookup `d.get(key, default)`: field lookup on a JSON object; calling `.get`
on a non-object raises `AttributeError` (as in Python). -/
def jGet (j : J) (key : String) (dflt : J) : Except PyErr J :=
  match j with
  | .obj fields =>
      match fields.find? (fun kv => kv.1 = key) with
      | some kv => .ok kv.2
      | none => .ok dflt
  | _ => .error .attributeError

/-- Store a JSON scalar into a pandas cell.  Non-scalar values end up as
opaque objects in a pandas column; no modelled operation inspects them, so
they are represented by a marker string. -/
def jToCell : J → Cell
  | .null => .null
  | .bool b => .int (if b then 1 else 0)
  | .num q => if q.den = 1 then .int q.num else .rat q
  | .str s => .str s
  | .arr _ => .str "<object>"
  | .obj _ => .str "<object>"

/-- A `mapM` over `Except`, written by structural recursion so that proofs
can follow the list. -/
def mapMEx {α β : Type} (f : α → Except PyErr β) : List α → Except PyErr (List β)
  | [] => .ok []
  | a :: as =>
      match f a with
      | .error e => .error e
      | .ok b =>
          match mapMEx f as with
          | .error e => .error e
          | .ok bs => .ok (b :: bs)

theorem mapMEx_ok_mem {α β : Type} (f : α → Except PyErr β) :
    ∀ (l : List α) (l' : List β), mapMEx f l = .ok l' →
      ∀ b ∈ l', ∃ a ∈ l, f a = .ok b := by
  intro l
  induction l with
  | nil =>
      intro l' h b hb
      simp [mapMEx] at h
      subst h
      simp at hb
  | cons a as ih =>
      intro l' h b hb
      simp only [mapMEx] at h
      cases hfa : f a with
      | error e => rw [hfa] at h; exact absurd h (by simp)
      | ok b0 =>
          rw [hfa] at h
          cases has : mapMEx f as with
          | error e => rw [has] at h; exact absurd h (by simp)
          | ok bs =>
              rw [has] at h
              cases h
              rcases List.mem_cons.mp hb with hb | hb
              · exact ⟨a, List.mem_cons_self a as, hb ▸ hfa⟩
              · obtain ⟨a', ha', hfa'⟩ := ih bs has b hb
                exact ⟨a', List.mem_cons_of_mem a ha', hfa'⟩

theorem mapMEx_ok_of_all_ok {α β : Type} (f : α → Except PyErr β)
    (g : α → β) : ∀ (l : List α), (∀ a ∈ l, f a = .ok (g a)) →
      mapMEx f l = .ok (l.map g) := by
  intro l
  induction l with
  | nil => intro _; simp [mapMEx]
  | cons a as ih =>
      intro h
      simp only [mapMEx, h a (List.mem_cons_self a as),
        ih (fun a' ha' => h a' (List.mem_cons_of_mem a ha')), List.map]

/-! Section: the Unified Observation Row and adapter result frames -/

/-- One row of the Unified Table: the six canonical columns, each holding a
pandas cell.  Adapters in `data_sources.py` all build rows of this shape. -/
structure URow where
  source : Cell
  country : Cell
  year : Cell
  metric : Cell
  value : Cell
  unit : Cell
deriving DecidableEq, Repr

/-- The DataFrame an adapter hands back to `load_selected`:
`PFrame.empty` is the columnless `pd.DataFrame()` that the adapters return
on failure (zero rows *and zero columns*), `PFrame.table rows` is a frame
that has the six canonical columns (possibly with zero rows). -/
inductive PFrame where
  | empty
  | table (rows : List URow)
deriving DecidableEq, Repr

/-- A DataFrame with explicit column labels, the return shape of
`load_selected`. -/
structure Frame where
  cols : List String
  rows : List URow
deriving DecidableEq, Repr

/-- The canonical column set of the Unified Table. -/
def canonicalCols : List String :=
  ["source", "country", "year", "metric", "value", "unit"]

/-- The keys of `REGISTRY` in `data_sources.py` (the mapping's values are
the adapter functions; lookups of other names return `None`). -/
def REGISTRY_keys : List String :=
  ["World Bank: mil exp %GDP",
   "World Bank: mil exp (USD)",
   "World Bank: armed forces total",
   "World Bank: armed forces % labor",
   "UN Peacekeeping: contributors",
   "USAspending: DoD obligations",
   "OWID: military personnel",
   "OWID: mil exp %GDP"]

/-- Year coercion `df["year"] = pd.to_numeric(df["year"], errors="coerce").astype("Int64")`
applied to one row. -/
def coerceURowYear (r : URow) : Except PyErr URow :=
  match astypeInt64 (toNumericCell r.year) with
  | .error e => .error e
  | .ok y => .ok { r with year := y }

/-- Rows contributed by one adapter frame to `pd.concat`. -/
def PFrame.rowsOf : PFrame → List URow
  | .empty => []
  | .table rs => rs

/-- Whether a frame brings any columns to `pd.concat` (the columnless
`pd.DataFrame()` brings none). -/
def PFrame.hasCols : PFrame → Bool
  | .empty => false
  | .table _ => true

/-- Operation `load_selected(sources)` from `data_sources.py`, with the adapter
invocations abstracted into `env`: `env name` is the outcome (return value
or raised exception) of calling the registered adapter `name` on this
render.  Unknown names are skipped; an adapter that raises is skipped
(`try/except: pass`); if nothing was appended, an empty frame with the
canonical columns is returned; otherwise the frames are concatenated
(`pd.concat` keeps the union of their columns, so if every appended frame
was the columnless empty, the result has no columns and
`df.dropna(subset=["value"])` raises `KeyError`); rows with missing
`value` are dropped and `year` is coerced to nullable integer. -/
def load_selected (env : String → Except PyErr PFrame)
    (sources : List String) : Except PyErr Frame :=
  let frames := sources.filterMap (fun name =>
    if name ∈ REGISTRY_keys then
      match env name with
      | .ok f => some f
      | .error _ => none
    else none)
  if frames.isEmpty then .ok ⟨canonicalCols, []⟩
  else if frames.any PFrame.hasCols then
    let rows := (frames.map PFrame.rowsOf).flatten
    let kept := rows.filter (fun r => r.value ≠ Cell.null)
    match mapMEx coerceURowYear kept with
    | .error e => .error e
    | .ok rs => .ok ⟨canonicalCols, rs⟩
  else .error .keyError

/-! Section: `_wb_indicator_to_df` (World Bank indicator adapter) -/

/-- The top-level shape check of `_wb_indicator_to_df`:
`data` must be a list of length ≥ 2 whose second element is a list; on
success this returns that record list. -/
def wbRecordsOf : J → Option (List J)
  | J.arr (_ :: second :: _) =>
      match second with
      | J.arr recs => some recs
      | _ => none
  | _ => none

/-- The body of the record loop of `_wb_indicator_to_df` for one record:
`val = rec.get("value")`; records with null value are skipped (`none`);
otherwise the row dict is built, evaluating `country`, `year` (via
`int(rec.get("date", 0) or 0)`) and `value` (via `float(val)`) in source
order, each of which can raise for malformed record contents. -/
def wbRecRow (code metricName unit : String) (rec : J) :
    Except PyErr (Option URow) :=
  match jGet rec "value" J.null with
  | .error e => .error e
  | .ok val =>
    match val with
    | J.null => .ok none
    | _ =>
      match jGet rec "country" (J.obj []) with
      | .error e => .error e
      | .ok c =>
        match jGet c "value" J.null with
        | .error e => .error e
        | .ok cv =>
          match jGet rec "date" (J.num 0) with
          | .error e => .error e
          | .ok d =>
            match pyInt (if jFalsy d then J.num 0 else d) with
            | .error e => .error e
            | .ok y =>
              match pyFloat val with
              | .error e => .error e
              | .ok v =>
                .ok (some ⟨.str "World Bank", jToCell cv, .int y,
                  .str (if metricName.isEmpty then code else metricName),
                  .rat v, .str unit⟩)

/-- The record loop of `_wb_indicator_to_df`: rows are appended in order,
records with null value contribute nothing, and the first raising record
aborts the whole adapter (the loop is *not* inside the `try`). -/
def wbRows (code metricName unit : String) : List J → Except PyErr (List URow)
  | [] => .ok []
  | rec :: recs =>
      match wbRecRow code metricName unit rec with
      | .error e => .error e
      | .ok none => wbRows code metricName unit recs
      | .ok (some r) =>
          match wbRows code metricName unit recs with
          | .error e => .error e
          | .ok rs => .ok (r :: rs)

/-- Adapter `_wb_indicator_to_df` from `data_sources.py`, with the HTTP fetch
(`requests.get` + `raise_for_status` + `.json()`, all inside the `try`)
abstracted into `resp`.  The `countries`/`start`/`end` parameters only
build the request URL and are therefore part of the abstracted fetch.
A failed fetch or an unexpected top-level shape yields the columnless
empty frame; otherwise the record rows are built and, when any row exists,
null values are dropped and `year` is coerced to nullable integer. -/
def _wb_indicator_to_df (code metricName unit : String)
    (resp : Except PyErr J) : Except PyErr PFrame :=
  match resp with
  | .error _ => .ok .empty
  | .ok data =>
    match wbRecordsOf data with
    | none => .ok .empty
    | some recs =>
      match wbRows code metricName unit recs with
      | .error e => .error e
      | .ok rows =>
        if rows.isEmpty then .ok .empty
        else
          let kept := rows.filter (fun r => r.value ≠ Cell.null)
          match mapMEx coerceURowYear kept with
          | .error e => .error e
          | .ok rs => .ok (.table rs)

/-! Section: `unpk_troop_contributors` (UN peacekeeping adapter) -/

/-- A raw DataFrame as produced by `pd.read_csv`: named columns and rows
of cells addressed positionally. -/
structure RawFrame where
  cols : List String
  rows : List (List Cell)
deriving DecidableEq, Repr

/-- Cell of a row at a column index. -/
def cellAt (r : List Cell) (j : Nat) : Cell := r.getD j Cell.null

/-- Whether `needle` occurs as a contiguous substring of `hay`
(Python's `needle in hay` on strings). -/
def containsSub (needle : List Char) : List Char → Bool
  | [] => needle.isEmpty
  | c :: t => needle.isPrefixOf (c :: t) || containsSub needle t

/-- The selected and cleaned `(country, year, troops)` triples of
`unpk_troop_contributors`, given the three column indices: troops are
numerically coerced (`pd.to_numeric(..., errors="coerce")`), rows with
missing `year` are dropped (`dropna(subset=["year"])`), and rows with a
missing grouping key are dropped by `groupby` (its default `dropna=True`
discards null keys — `year` is already non-null, so this drops null
`country`). -/
def unpkTriples (raw : RawFrame) (iC iY iT : Nat) :
    List (Cell × Cell × Cell) :=
  ((raw.rows.map (fun r =>
      (cellAt r iC, cellAt r iY, toNumericCell (cellAt r iT))))
    |>.filter (fun t => t.2.1 ≠ Cell.null))
    |>.filter (fun t => t.1 ≠ Cell.null)

/-- The distinct `(country, year)` grouping keys.  (pandas sorts group
keys; key order is irrelevant to every claim, so the embedding uses the
deduplicated key list instead of modelling pandas' mixed-type sort.) -/
def groupKeys (ts : List (Cell × Cell × Cell)) : List (Cell × Cell) :=
  (ts.map (fun t => (t.1, t.2.1))).dedup

/-- Grouping `groupby(["country","year"])["troops"]`: each distinct key with the
troops cells of its member rows, in row order. -/
def groupTriples (ts : List (Cell × Cell × Cell)) :
    List ((Cell × Cell) × List Cell) :=
  (groupKeys ts).map (fun k =>
    (k, (ts.filter (fun t => (t.1, t.2.1) = k)).map (fun t => t.2.2)))

/-- Summation `.sum(min_count=1)` over one group's troops cells: the sum of the
non-missing values, or missing when the group has none. -/
def sumMinCount1 (ms : List Cell) : Cell :=
  let vs := ms.filterMap Cell.numVal
  if vs.isEmpty then Cell.null else Cell.rat vs.sum

/-- The output row `unpk_troop_contributors` builds for one group. -/
def unpkRow (k : Cell × Cell) (ms : List Cell) : URow :=
  ⟨.str "UN Peacekeeping", k.1, k.2,
   .str "Troops contributed to UN PKO", sumMinCount1 ms, .str "personnel"⟩

/-- Adapter `unpk_troop_contributors` from `data_sources.py`, with the CSV fetch
(`pd.read_csv(url)`, inside the `try`) abstracted into `resp`.  Column
names are lower-cased; the first column containing `"country"`, the column
named `"year"` and the first column containing `"troop"` but not
`"police"` are selected (missing any of them yields the columnless empty
frame); rows are cleaned, grouped by `(country, year)` and troop-summed
with `min_count=1`; note the result keeps the canonical columns even with
zero rows, and that no null-`value` filter is applied after the sum. -/
def unpk_troop_contributors (resp : Except PyErr RawFrame) :
    Except PyErr PFrame :=
  match resp with
  | .error _ => .ok .empty
  | .ok raw =>
    let low := raw.cols.map strToLower
    match low.findIdx? (fun c => containsSub "country".toList c.toList),
          low.findIdx? (fun c => c == "year"),
          low.findIdx? (fun c => containsSub "troop".toList c.toList &&
            !(containsSub "police".toList c.toList)) with
    | some iC, some iY, some iT =>
        .ok (.table ((groupTriples (unpkTriples raw iC iY iT)).map
          (fun g => unpkRow g.1 g.2)))
    | _, _, _ => .ok .empty

/-! Section: `_owid_grapher_csv_to_df` (CSV/grapher adapter) -/

/-- Python `a or b` over optional strings (dict lookups): `None` and the
empty string are falsy. -/
def pyOr (a b : Option String) : Option String :=
  match a with
  | some s => if s.isEmpty then b else some s
  | none => b

/-- Python `a or b` where `b` is a string literal. -/
def orStr (a : Option String) (b : String) : String :=
  match a with
  | some s => if s.isEmpty then b else s
  | none => b

/-- Lookup in `cols = {c.lower(): c for c in df.columns}`: the original
name of the column whose lower-cased name is `key`; with duplicate
lower-cased names the dict comprehension keeps the last one, hence the
reversed search. -/
def colsDictGet (cols : List String) (key : String) : Option String :=
  cols.reverse.find? (fun c => strToLower c == key)

/-- The entity column chosen by `_owid_grapher_csv_to_df`:
`cols.get("entity") or cols.get("country") or "Entity"`. -/
def owidEntCol (cols : List String) : String :=
  orStr (pyOr (colsDictGet cols "entity") (colsDictGet cols "country"))
    "Entity"

/-- The year column chosen by `_owid_grapher_csv_to_df`:
`cols.get("year") or "Year"`. -/
def owidYrCol (cols : List String) : String :=
  orStr (colsDictGet cols "year") "Year"

/-- The value column chosen by `_owid_grapher_csv_to_df`:
`value_col if value_col in df.columns else cols.get(value_col.lower())`
(possibly `None`). -/
def owidValCol (valueCol : String) (cols : List String) : Option String :=
  if valueCol ∈ cols then some valueCol
  else colsDictGet cols (strToLower valueCol)

/-- The column-presence check of `_owid_grapher_csv_to_df`
(`if ent not in df.columns or yr not in df.columns or val not in
df.columns: return pd.DataFrame()`); a `None` value column fails it. -/
def owidColsOk (valueCol : String) (cols : List String) : Bool :=
  decide (owidEntCol cols ∈ cols) && decide (owidYrCol cols ∈ cols) &&
    (match owidValCol valueCol cols with
     | some v => decide (v ∈ cols)
     | none => false)

/-- Adapter `_owid_grapher_csv_to_df` from `data_sources.py`, with the
CSV download (`pd.read_csv(url)`, inside the `try`) abstracted into
`resp`.  A failed fetch or a missing entity/year/value column yields the
columnless empty frame.  Otherwise the three columns are selected by
name (the embedding uses the first index of each name) and renamed,
`source`/`metric`/`unit` are attached, `year` is coerced to nullable
integer (`astype("Int64")`, which can raise on non-integral numeric
years — there is no surrounding catch), `value` is numerically coerced,
rows with missing `value` are dropped, and the frame keeps the canonical
columns even with zero rows. -/
def _owid_grapher_csv_to_df (valueCol metricName unit : String)
    (resp : Except PyErr RawFrame) : Except PyErr PFrame :=
  match resp with
  | .error _ => .ok .empty
  | .ok raw =>
    if owidColsOk valueCol raw.cols = true then
      match owidValCol valueCol raw.cols with
      | none => .ok .empty
      | some v =>
        let iE := (raw.cols.findIdx?
          (fun c => c == owidEntCol raw.cols)).getD 0
        let iY := (raw.cols.findIdx?
          (fun c => c == owidYrCol raw.cols)).getD 0
        let iV := (raw.cols.findIdx? (fun c => c == v)).getD 0
        match mapMEx (fun r =>
          match astypeInt64 (toNumericCell (cellAt r iY)) with
          | .error e => .error e
          | .ok y => .ok (⟨.str "Our World in Data", cellAt r iE, y,
              .str metricName, toNumericCell (cellAt r iV),
              .str unit⟩ : URow)) raw.rows with
        | .error e => .error e
        | .ok rows =>
            .ok (.table (rows.filter (fun r => r.value ≠ Cell.null)))
    else .ok .empty

/-! Section: `usaspending_dod_obligations` (agency-obligations adapter) -/

/-- Lazy scan `next((x for x in results if x.get("toptier_code") == "097"), None)`:
lazily scan for the first record whose agency code is `"097"`; a non-dict
record reached during the scan raises (caught by the per-year `except`). -/
def firstDod : List J → Except PyErr (Option J)
  | [] => .ok none
  | x :: xs =>
      match jGet x "toptier_code" J.null with
      | .error e => .error e
      | .ok t =>
          match t with
          | .str s => if s = "097" then .ok (some x) else firstDod xs
          | _ => firstDod xs

/-- The row built for one fiscal year. -/
def usasRow (fy : Int) (v : ℚ) : URow :=
  ⟨.str "USAspending", .str "United States", .int fy,
   .str "DoD Obligations", .rat v, .str "USD"⟩

/-- One iteration of the fiscal-year loop of `usaspending_dod_obligations`,
with the HTTP fetch for that year abstracted into `env fy` (covering
`requests.get`, `raise_for_status` and `.json()`).  Everything in the loop
body runs inside `try/except: continue`, so any raise yields no row, as
does the absence of a `"097"` record. -/
def usasObVal (env : Int → Except PyErr J) (fy : Int) : Option ℚ :=
  match env fy with
  | .error _ => none
  | .ok body =>
    match jGet body "results" (J.arr []) with
    | .error _ => none
    | .ok res0 =>
      match (if jFalsy res0 then J.arr [] else res0) with
      | J.arr recs =>
          match firstDod recs with
          | .error _ => none
          | .ok none => none
          | .ok (some d) =>
              match jGet d "obligations" J.null with
              | .error _ => none
              | .ok ob =>
                  match pyFloat (if jFalsy ob then J.num 0 else ob) with
                  | .error _ => none
                  | .ok v => some v
      | _ => none

/-- The row the loop appends for fiscal year `fy`, when `usasObVal`
produced an obligations value. -/
def usasRowForYear (env : Int → Except PyErr J) (fy : Int) : Option URow :=
  (usasObVal env fy).map (usasRow fy)

/-- Python `range(start_fy, end_fy + 1)`. -/
def fyRange (s e : Int) : List Int :=
  (List.range (e + 1 - s).toNat).map (fun i => s + Int.ofNat i)

/-- Adapter `usaspending_dod_obligations` from `data_sources.py`: one request per
fiscal year in `range(start_fy, end_fy + 1)`, at most one row per year;
the final frame is columnless-empty when no row was produced, otherwise
`year` is coerced to nullable integer. -/
def usaspending_dod_obligations (env : Int → Except PyErr J)
    (startFy endFy : Int) : Except PyErr PFrame :=
  let rows := (fyRange startFy endFy).filterMap (usasRowForYear env)
  if rows.isEmpty then .ok .empty
  else
    match mapMEx coerceURowYear rows with
    | .error e => .error e
    | .ok rs => .ok (.table rs)

/-! Section: `fetch_omb_table_32` (tabular-report / OMB workbook adapter,
from `app_readiness_dashboard.py`) -/

/-- Python `str(cell)`: missing prints as `"nan"`, floats with an
integral value as `"<n>.0"`.  (The non-integral float form is only ever
pattern-tested below, and no float repr passes those patterns, so its
exact spelling is immaterial.) -/
def pyStrCell : Cell → String
  | .null => "nan"
  | .int n => toString n
  | .rat q =>
      if q.den = 1 then toString q.num ++ ".0"
      else toString q.num ++ "/" ++ toString q.den
  | .str s => s

/-- Regex test `re.fullmatch(r"\d\x7b4\x7d", s)`. -/
def isYear4 (s : String) : Bool :=
  s.length == 4 && s.toList.all Char.isDigit

/-- Regex replacement `s.replace` of a leading code on one string: remove a
leading run of whitespace, digits (at least one) and whitespace (at least
one); leave the string unchanged when the pattern does not match. -/
def stripLeadCode (s : String) : String :=
  let cs := s.toList
  let rest := cs.dropWhile Char.isWhitespace
  let ds := rest.takeWhile Char.isDigit
  let rest2 := rest.drop ds.length
  let ws2 := rest2.takeWhile Char.isWhitespace
  if ds.isEmpty || ws2.isEmpty then s
  else String.mk (rest2.drop ws2.length)

/-- One tidy row of OMB Historical Table 3.2 (`['line','label','year',
'outlays']`): `year` is nullable-integer after `astype("Int64")` and
`outlays` nullable-float after `to_numeric(..., errors="coerce")`. -/
structure TRow where
  line : String
  label : String
  year : Option Int
  outlays : Option ℚ
deriving DecidableEq, Repr

/-- Adapter `fetch_omb_table_32` from `app_readiness_dashboard.py`, with the
workbook download *and* sheet read abstracted into `resp` (the inner
`try/except` only switches Excel engines over the same bytes; if both
fail, or the download fails, the exception propagates — there is no
outer catch in this function).  The header row is found by scanning
column 0 of the first 20 rows for the label prefix, falling back to row
index 2 (`iloc` raises `IndexError` when that row does not exist); only
columns whose header prints as a 4-digit year are kept (the first column
is renamed to the label column); rows that are missing across all year
columns are dropped; the wide table is melted to long form one year
column at a time; `year`/`outlays` are coerced and the label is the line
with its leading numeric code stripped. -/
def fetch_omb_table_32 (resp : Except PyErr (List (List Cell))) :
    Except PyErr (List TRow) :=
  match resp with
  | .error e => .error e
  | .ok raw =>
    let headerIdx :=
      match (List.range (min 20 raw.length)).find? (fun i =>
        strStartsWith (strToLower (strTrim (pyStrCell (cellAt (raw.getD i []) 0))))
          "function and subfunction") with
      | some i => i
      | none => 2
    if headerIdx < raw.length then
      let cols := raw.getD headerIdx []
      let body := raw.drop (headerIdx + 1)
      let yearIdx := (List.range cols.length).filter (fun j =>
        j != 0 && isYear4 (pyStrCell (cellAt cols j)))
      let body := body.filter (fun r =>
        yearIdx.any (fun j => cellAt r j ≠ Cell.null))
      let melted := (yearIdx.map (fun j =>
        body.map (fun r => (cellAt r 0, cellAt cols j, cellAt r j)))).flatten
      mapMEx (fun t =>
        match astypeInt64 (toNumericCell t.2.1) with
        | .error e => .error e
        | .ok y =>
            let line := match t.1 with
              | Cell.null => ""
              | c => pyStrCell c
            .ok { line := line, label := stripLeadCode line,
                  year := match y with | Cell.int n => some n | _ => none,
                  outlays := (toNumericCell t.2.2).numVal }) melted
    else .error .indexError

/-! Section: `pick_defense_series` (prefix-series selector) -/

/-- One row of the series `pick_defense_series` returns. -/
structure SRow where
  year : Int
  outlays : ℚ
  series : String
deriving DecidableEq, Repr

/-- The series tag `f"National defense ({which}*)"`. -/
def seriesLabel (which : String) : String :=
  "National defense (" ++ which ++ "*)"

/-- Ordering of series rows by year (for `sort_values("year")`). -/
def syLe (a b : SRow) : Prop := a.year ≤ b.year

instance : DecidableRel syLe :=
  fun a b => inferInstanceAs (Decidable (a.year ≤ b.year))

instance : IsTotal SRow syLe := ⟨fun a b => le_total a.year b.year⟩

instance : IsTrans SRow syLe :=
  ⟨fun _ _ _ hab hbc => le_trans hab hbc⟩

/-- Selector `pick_defense_series(tidy, which)` from `app_readiness_dashboard.py`:
`assert which in {"050", "051"}` (any other argument raises
`AssertionError`); rows whose *stripped* line starts with `which + " "`
are selected; `groupby("year")` drops rows with missing year, sorts the
keys ascending and sums the non-missing outlays per year (`sum()` with
its default `min_count=0`, so an all-missing group sums to 0); the result
is then (redundantly) sorted ascending by year again and tagged. -/
def pick_defense_series (tidy : List TRow) (which : String) :
    Except PyErr (List SRow) :=
  if which = "050" ∨ which = "051" then
    let m := tidy.filter (fun r => strStartsWith (strTrim r.line) (which ++ " "))
    let years := List.insertionSort (· ≤ ·) ((m.filterMap TRow.year).dedup)
    let sel := years.map (fun y =>
      { year := y,
        outlays := ((m.filter (fun r => r.year = some y)).filterMap
          TRow.outlays).sum,
        series := seriesLabel which })
    .ok (List.insertionSort syLe sel)
  else .error .assertionError

/-! Section: top-N-latest-year selection (UN peacekeeping chart,
`app_readiness_dashboard.py` lines 94 to 103) -/

/-- A row of the unified table as consumed by the chart code: by the
`load_selected` invariant the `value` column is numeric and non-missing,
`year` is nullable-integer. -/
structure ORow where
  source : String
  country : String
  year : Option Int
  metric : String
  value : ℚ
  unit : String
deriving DecidableEq, Repr

/-- Descending comparison by `value` (for `nlargest`). -/
def valGe (a b : ORow) : Prop := b.value ≤ a.value

/-- Ascending comparison by `value` (for `sort_values("value")`). -/
def valLe (a b : ORow) : Prop := a.value ≤ b.value

instance : DecidableRel valGe :=
  fun a b => inferInstanceAs (Decidable (b.value ≤ a.value))

instance : DecidableRel valLe :=
  fun a b => inferInstanceAs (Decidable (a.value ≤ b.value))

instance : IsTotal ORow valGe := ⟨fun a b => le_total b.value a.value⟩

instance : IsTrans ORow valGe :=
  ⟨fun _ _ _ hab hbc => le_trans hbc hab⟩

instance : IsTotal ORow valLe := ⟨fun a b => le_total a.value b.value⟩

instance : IsTrans ORow valLe :=
  ⟨fun _ _ _ hab hbc => le_trans hab hbc⟩

/-- Computation `unpk["year"].dropna().max()`: the largest non-missing year. -/
def latestYear (rows : List ORow) : Option Int :=
  (rows.filterMap ORow.year).max?

/-- Selection `.nlargest(n, "value")` with its default `keep="first"`: a stable
descending sort by value, then the first `n` rows. -/
def nlargestByValue (n : Nat) (l : List ORow) : List ORow :=
  (List.insertionSort valGe l).take n

/-- The UN-peacekeeping chart slice (lines 94–103 of
`app_readiness_dashboard.py`): filter the unified table to one metric
(an empty match renders nothing, i.e. an empty series); find the latest
non-missing year; keep rows of that year; take the `n` largest by value;
sort ascending by value for the horizontal bar chart. -/
def topn (tbl : List ORow) (metric : String) (n : Nat) : List ORow :=
  let f := tbl.filter (fun r => r.metric = metric)
  if f.isEmpty then []
  else
    match latestYear f with
    | none => []
    | some y =>
        List.insertionSort valLe
          (nlargestByValue n (f.filter (fun r => r.year = some y)))

/-! Section: shared helper lemmas -/

theorem astypeInt64_shape (c y : Cell) (h : astypeInt64 c = .ok y) :
    y = Cell.null ∨ ∃ n : Int, y = Cell.int n := by
  cases c with
  | null => simp [astypeInt64] at h; simp [← h]
  | int n => simp [astypeInt64] at h; exact Or.inr ⟨n, h.symm⟩
  | rat q =>
      simp only [astypeInt64] at h
      by_cases hq : q.den = 1
      · rw [if_pos hq] at h
        exact Or.inr ⟨q.num, by cases h; rfl⟩
      · rw [if_neg hq] at h; cases h
  | str s => simp [astypeInt64] at h

theorem coerceURowYear_ok (r r' : URow) (h : coerceURowYear r = .ok r') :
    r'.value = r.value ∧
      (r'.year = Cell.null ∨ ∃ n : Int, r'.year = Cell.int n) := by
  unfold coerceURowYear at h
  cases ha : astypeInt64 (toNumericCell r.year) with
  | error e => rw [ha] at h; cases h
  | ok y =>
      rw [ha] at h
      cases h
      exact ⟨rfl, astypeInt64_shape _ _ ha⟩

/-! Section: claim theorems -/

/-- C2 (code bug): the claim says `load_selected` never raises when no
adapter produced rows.  With the empty selection it indeed returns the
canonical empty table, but when a resolved adapter returns the columnless
empty `pd.DataFrame()` (the shape every adapter produces on failure), the
concatenated frame has no `value` column and `df.dropna(subset=["value"])`
raises `KeyError` — `load_selected` propagates it instead of returning an
empty six-column table. -/
theorem load_selected_all_empty_frames_keyerror :
    load_selected (fun _ => .ok PFrame.empty) [] =
        .ok ⟨canonicalCols, []⟩ ∧
      load_selected (fun _ => .ok PFrame.empty)
        ["World Bank: mil exp %GDP"] = .error PyErr.keyError :=
  ⟨rfl, rfl⟩

/-- C7: `load_selected(["unknown-name"])` behaves identically to
`load_selected([])` — the unknown name is not in the registry, so it is
skipped without invoking any adapter, no frame is appended, and both
calls return the canonical empty table. -/
theorem load_selected_unknown_eq_empty
    (env : String → Except PyErr PFrame) :
    load_selected env ["unknown-name"] = load_selected env [] := rfl

/-- C9: `pick_defense_series` asserts `which ∈ {"050", "051"}`: under
that precondition it returns a series, and any other argument fails the
assertion (raises `AssertionError`) instead of returning. -/
theorem pick_defense_series_assertion (tidy : List TRow) (which : String) :
    ((which = "050" ∨ which = "051") →
      ∃ s, pick_defense_series tidy which = .ok s) ∧
    (¬(which = "050" ∨ which = "051") →
      pick_defense_series tidy which = .error PyErr.assertionError) := by
  constructor
  · intro hw
    exact ⟨_, by rw [pick_defense_series, if_pos hw]⟩
  · intro hw
    rw [pick_defense_series, if_neg hw]

/-- C10: in `_wb_indicator_to_df`, a record with non-null value whose
`date` field is missing, or present but the empty string, yields
`int(rec.get("date", 0) or 0) = 0`: the produced row has year `0`, not a
null year. -/
theorem wb_missing_or_empty_date_year_zero (v : ℚ) (code unit : String) :
    _wb_indicator_to_df code "Metric" unit
        (.ok (J.arr [J.null, J.arr [J.obj [("value", J.num v)]]])) =
      .ok (.table [⟨.str "World Bank", Cell.null, .int 0, .str "Metric",
        .rat v, .str unit⟩]) ∧
    _wb_indicator_to_df code "Metric" unit
        (.ok (J.arr [J.null,
          J.arr [J.obj [("value", J.num v), ("date", J.str "")]]])) =
      .ok (.table [⟨.str "World Bank", Cell.null, .int 0, .str "Metric",
        .rat v, .str unit⟩]) :=
  ⟨rfl, rfl⟩

/-- C3 (counterexample): two concrete failures of the claim that every
adapter converts failures to an empty result and never propagates an
exception.  A failed fetch in the OMB workbook adapter propagates to the
caller (which is why the call site wraps it in `try/except`), and the
indicator-API adapter raises `ValueError` from `int("abc")` on a record
with a non-null value and a non-numeric date, because its record loop is
outside the `try`. -/
theorem adapter_error_propagation_counterexample :
    fetch_omb_table_32 (.error .netError) = .error PyErr.netError ∧
    _wb_indicator_to_df "MS.MIL.XPND.GD.ZS" "M" "U"
        (.ok (J.arr [J.null,
          J.arr [J.obj [("value", J.num 1), ("date", J.str "abc")]]])) =
      .error PyErr.valueError :=
  ⟨rfl, rfl⟩

/-- C3 (amended): every adapter in `data_sources.py` returns an empty
result when its fetch fails (indicator API, OWID grapher CSV, UN CSV,
and — year by year — the agency-obligations API) and when the response
lacks the expected shape or columns (indicator top-level shape; OWID
entity/year/value columns; UN country/year/troops columns).  The OMB
workbook adapter (`fetch_omb_table_32`) instead propagates fetch
exceptions to its caller (which catches them at the call site), and
malformed individual record or cell contents can still raise past an
adapter's boundary (indicator record loop; see the counterexample). -/
theorem adapter_failure_policy_amended :
    (∀ (code mn u : String) (e : PyErr),
      _wb_indicator_to_df code mn u (.error e) = .ok PFrame.empty) ∧
    (∀ (code mn u : String) (j : J), wbRecordsOf j = none →
      _wb_indicator_to_df code mn u (.ok j) = .ok PFrame.empty) ∧
    (∀ (vc mn u : String) (e : PyErr),
      _owid_grapher_csv_to_df vc mn u (.error e) = .ok PFrame.empty) ∧
    (∀ (vc mn u : String) (raw : RawFrame),
      owidColsOk vc raw.cols = false →
      _owid_grapher_csv_to_df vc mn u (.ok raw) = .ok PFrame.empty) ∧
    (∀ e : PyErr,
      unpk_troop_contributors (.error e) = .ok PFrame.empty) ∧
    (∀ raw : RawFrame,
      ((raw.cols.map strToLower).findIdx?
          (fun c => containsSub "country".toList c.toList) = none ∨
        (raw.cols.map strToLower).findIdx? (fun c => c == "year") = none ∨
        (raw.cols.map strToLower).findIdx?
          (fun c => containsSub "troop".toList c.toList &&
            !(containsSub "police".toList c.toList)) = none) →
      unpk_troop_contributors (.ok raw) = .ok PFrame.empty) ∧
    (∀ (e : PyErr) (s f : Int),
      usaspending_dod_obligations (fun _ => .error e) s f =
        .ok PFrame.empty) ∧
    (∀ e : PyErr, fetch_omb_table_32 (.error e) = .error e) := by
  refine ⟨fun code mn u e => rfl, fun code mn u j hj => ?_,
    fun vc mn u e => rfl, fun vc mn u raw hcols => ?_,
    fun e => rfl, fun raw hfind => ?_, fun e s f => ?_, fun e => rfl⟩
  · rw [_wb_indicator_to_df, hj]
  · rw [_owid_grapher_csv_to_df, hcols]
    simp
  · simp only [unpk_troop_contributors]
    cases hC : (raw.cols.map strToLower).findIdx?
        (fun c => containsSub "country".toList c.toList) with
    | none => rfl
    | some iC =>
        cases hY : (raw.cols.map strToLower).findIdx?
            (fun c => c == "year") with
        | none => rfl
        | some iY =>
            cases hT : (raw.cols.map strToLower).findIdx?
                (fun c => containsSub "troop".toList c.toList &&
                  !(containsSub "police".toList c.toList)) with
            | none => rfl
            | some iT =>
                rcases hfind with h | h | h
                · rw [hC] at h; cases h
                · rw [hY] at h; cases h
                · rw [hT] at h; cases h
  · rw [usaspending_dod_obligations]
    have : (fyRange s f).filterMap
        (usasRowForYear (fun _ => .error e)) = [] := by
      apply List.filterMap_eq_nil_iff.mpr
      intro fy _
      rfl
    rw [this]
    rfl

/-- C1: whenever `load_selected` returns a table (for any selection and
any adapter behavior), every row of it has a non-missing `value` (the
final `dropna(subset=["value"])`), and its `year` is either missing or an
integer (the final `to_numeric` + `astype("Int64")` coercion). -/
theorem load_selected_value_year_invariant
    (env : String → Except PyErr PFrame) (sources : List String)
    (frame : Frame) (h : load_selected env sources = .ok frame) :
    ∀ r ∈ frame.rows, r.value ≠ Cell.null ∧
      (r.year = Cell.null ∨ ∃ n : Int, r.year = Cell.int n) := by
  intro r hr
  simp only [load_selected] at h
  split at h
  · cases h
    simp at hr
  · split at h
    · split at h
      · cases h
      · rename_i rs hmap
        cases h
        obtain ⟨r0, hr0, hco⟩ := mapMEx_ok_mem _ _ rs hmap r hr
        have hv := (List.mem_filter.mp hr0).2
        have hco' := coerceURowYear_ok r0 r hco
        refine ⟨?_, hco'.2⟩
        rw [hco'.1]
        exact of_decide_eq_true hv
    · cases h

/-- Witness for C1 at a concrete selection: one registered source whose
adapter returns a single row; the returned row keeps its non-null value
and integer year. -/
theorem load_selected_value_year_invariant_witness :
    (⟨.str "s", .str "c", .int 2020, .str "m", .rat 1, .str "u"⟩ :
        URow).value ≠ Cell.null ∧
      ((⟨.str "s", .str "c", .int 2020, .str "m", .rat 1, .str "u"⟩ :
          URow).year = Cell.null ∨
        ∃ n : Int, (⟨.str "s", .str "c", .int 2020, .str "m", .rat 1,
          .str "u"⟩ : URow).year = Cell.int n) :=
  load_selected_value_year_invariant
    (fun _ => .ok (PFrame.table
      [⟨.str "s", .str "c", .int 2020, .str "m", .rat 1, .str "u"⟩]))
    ["World Bank: mil exp %GDP"]
    ⟨canonicalCols,
      [⟨.str "s", .str "c", .int 2020, .str "m", .rat 1, .str "u"⟩]⟩
    rfl _ (by simp)

/-- C5 (counterexample): `pick_defense_series` strips each line before
the prefix test (`tidy["line"].str.strip().str.startswith(which + " ")`),
so a row whose line has leading whitespace — which does *not* start with
`"051 "` — is nevertheless selected, contradicting the claim that exactly
the rows whose `line` starts with the prefix followed by a space are
returned. -/
theorem pick_defense_series_strip_counterexample :
    pick_defense_series [⟨" 051 X", "X", some 2020, some 7⟩] "051" =
      .ok [⟨2020, List.sum [(7 : ℚ)], "National defense (051*)"⟩] ∧
    List.sum [(7 : ℚ)] = 7 ∧
    strStartsWith " 051 X" "051 " = false :=
  ⟨rfl, by norm_num, rfl⟩

/-- C5 (amended): prefix-series selection returns exactly the rows whose
*whitespace-stripped* line starts with the prefix followed by a space,
grouped by non-missing year with the non-missing outlay values summed per
year, sorted ascending by year and tagged with the series label.  (The
spec's concrete example is unaffected by the amendment; see the
witness.) -/
theorem pick_defense_series_amended (tidy : List TRow) (which : String)
    (s : List SRow) (hs : pick_defense_series tidy which = .ok s) :
    List.Sorted syLe s ∧
    (∀ r ∈ s,
      (∃ t ∈ tidy, strStartsWith (strTrim t.line) (which ++ " ") = true ∧
        t.year = some r.year) ∧
      r.outlays = (((tidy.filter (fun t =>
          strStartsWith (strTrim t.line) (which ++ " "))).filter
        (fun t => t.year = some r.year)).filterMap TRow.outlays).sum ∧
      r.series = seriesLabel which) ∧
    (∀ t ∈ tidy, strStartsWith (strTrim t.line) (which ++ " ") = true →
      ∀ y : Int, t.year = some y → ∃ r ∈ s, r.year = y) := by
  simp only [pick_defense_series] at hs
  split at hs
  · cases hs
    refine ⟨List.sorted_insertionSort syLe _, ?_, ?_⟩
    · intro r hr
      rw [List.mem_insertionSort] at hr
      obtain ⟨y, hy, hr⟩ := List.mem_map.mp hr
      rw [List.mem_insertionSort, List.mem_dedup] at hy
      obtain ⟨t, ht, hty⟩ := List.mem_filterMap.mp hy
      have htm := List.mem_filter.mp ht
      subst hr
      exact ⟨⟨t, htm.1, htm.2, hty⟩, rfl, rfl⟩
    · intro t ht hpre y hy
      simp only [List.mem_insertionSort, List.mem_map, List.mem_dedup,
        List.mem_filterMap]
      exact ⟨_, ⟨y, ⟨t, List.mem_filter.mpr ⟨ht, hpre⟩, hy⟩, rfl⟩, rfl⟩
  · cases hs

/-- Witness for C5 (amended) at the spec's example table: selecting
prefix `"051"` from the two-line table yields exactly one row for year
2020 with summed value 100, and the result is sorted by year. -/
theorem pick_defense_series_amended_witness :
    List.Sorted syLe
      [⟨2020, List.sum [(100 : ℚ)], "National defense (051*)"⟩] :=
  (pick_defense_series_amended
    [⟨"051 Department of Defense", "Department of Defense", some 2020,
        some 100⟩,
     ⟨"052 Other", "Other", some 2020, some 50⟩] "051"
    [⟨2020, List.sum [(100 : ℚ)], "National defense (051*)"⟩] rfl).1

theorem sumMinCount1_null_iff (ms : List Cell) :
    sumMinCount1 ms = Cell.null ↔ ∀ m ∈ ms, m.numVal = none := by
  simp only [sumMinCount1]
  by_cases hv : (ms.filterMap Cell.numVal).isEmpty = true
  · rw [if_pos hv]
    simp only [true_iff]
    rw [List.isEmpty_iff] at hv
    exact fun m hm => List.filterMap_eq_nil_iff.mp hv m hm
  · rw [if_neg hv]
    constructor
    · intro h; cases h
    · intro hall
      exact absurd (List.isEmpty_iff.mpr
        (List.filterMap_eq_nil_iff.mpr hall)) hv

theorem groupTriples_mem (ts : List (Cell × Cell × Cell))
    (g : (Cell × Cell) × List Cell) (hg : g ∈ groupTriples ts) :
    (∃ t ∈ ts, (t.1, t.2.1) = g.1) ∧
      g.2 = (ts.filter (fun t => (t.1, t.2.1) = g.1)).map
        (fun t => t.2.2) := by
  obtain ⟨k, hk, hgk⟩ := List.mem_map.mp hg
  rw [groupKeys, List.mem_dedup] at hk
  obtain ⟨t, ht, hts⟩ := List.mem_map.mp hk
  subst hgk
  exact ⟨⟨t, ht, hts⟩, rfl⟩

/-- C4 (counterexample): the UN peacekeeping adapter can return a row
whose `value` is missing.  With a syntactically fine CSV whose single
troops entry is non-numeric, `to_numeric(..., errors="coerce")` turns it
into missing, the `(country, year)` group consists of that one missing
entry, and `.sum(min_count=1)` of an all-missing group is missing — and
no null-`value` filter runs after the aggregation. -/
theorem unpk_null_value_counterexample :
    unpk_troop_contributors (.ok ⟨["Country", "Year", "Troops_Total"],
      [[.str "A", .int 2020, .str "x"]]⟩) =
    .ok (PFrame.table [⟨.str "UN Peacekeeping", .str "A", .int 2020,
      .str "Troops contributed to UN PKO", Cell.null,
      .str "personnel"⟩]) := rfl

/-- C4 (amended): every row the UN peacekeeping adapter returns has a
non-missing `year` and `country`; its `value` is the `min_count=1` sum of
exactly the coerced troops entries of the cleaned input rows
(`unpkTriples`: selected columns, troops coerced, missing year and
missing country dropped) that share the row's own `(country, year)` key
— a nonempty set — and `value` is therefore missing exactly when *every*
troops entry of that group failed numeric coercion. -/
theorem unpk_rows_amended (raw : RawFrame) (rows : List URow)
    (h : unpk_troop_contributors (.ok raw) = .ok (PFrame.table rows)) :
    ∀ r ∈ rows, r.year ≠ Cell.null ∧ r.country ≠ Cell.null ∧
      ∃ iC iY iT : Nat,
        (raw.cols.map strToLower).findIdx?
          (fun c => containsSub "country".toList c.toList) = some iC ∧
        (raw.cols.map strToLower).findIdx?
          (fun c => c == "year") = some iY ∧
        (raw.cols.map strToLower).findIdx?
          (fun c => containsSub "troop".toList c.toList &&
            !(containsSub "police".toList c.toList)) = some iT ∧
        (∃ t ∈ unpkTriples raw iC iY iT,
          (t.1, t.2.1) = (r.country, r.year)) ∧
        r.value = sumMinCount1 (((unpkTriples raw iC iY iT).filter
          (fun t => (t.1, t.2.1) = (r.country, r.year))).map
            (fun t => t.2.2)) ∧
        (r.value = Cell.null ↔ ∀ t ∈ unpkTriples raw iC iY iT,
          (t.1, t.2.1) = (r.country, r.year) →
            Cell.numVal t.2.2 = none) := by
  intro r hr
  simp only [unpk_troop_contributors] at h
  split at h
  · rename_i iC iY iT heq1 heq2 heq3
    simp only [Except.ok.injEq, PFrame.table.injEq] at h
    subst h
    obtain ⟨g, hg, hrg⟩ := List.mem_map.mp hr
    obtain ⟨⟨t, ht, hts⟩, hms⟩ :=
      groupTriples_mem (unpkTriples raw iC iY iT) g hg
    have ht1 := List.mem_filter.mp ht
    have hcountry : t.1 ≠ Cell.null := of_decide_eq_true ht1.2
    have ht2 := List.mem_filter.mp ht1.1
    have hyear : t.2.1 ≠ Cell.null := of_decide_eq_true ht2.2
    obtain ⟨k, ms⟩ := g
    subst hts
    subst hrg
    have hms' : ms = ((unpkTriples raw iC iY iT).filter
        (fun u => (u.1, u.2.1) = (t.1, t.2.1))).map
          (fun u => u.2.2) := hms
    refine ⟨hyear, hcountry, iC, iY, iT, heq1, heq2, heq3,
      ⟨t, ht, by simp [unpkRow]⟩, ?_, ?_⟩
    · simp only [unpkRow]
      rw [hms']
    · simp only [unpkRow]
      rw [sumMinCount1_null_iff]
      constructor
      · intro hall u hu hk
        apply hall
        rw [hms']
        exact List.mem_map_of_mem _
          (List.mem_filter.mpr ⟨hu, by simp [hk]⟩)
      · intro hall m hm
        rw [hms'] at hm
        obtain ⟨u, hu, hum⟩ := List.mem_map.mp hm
        have hu2 := List.mem_filter.mp hu
        rw [← hum]
        exact hall u hu2.1 (of_decide_eq_true hu2.2)
  · simp at h

/-- Witness for C4 (amended) at the counterexample input: the returned
row has non-missing year and country, and its missing value is tied to
its own `("A", 2020)` group, whose single coerced troops entry is
missing. -/
theorem unpk_rows_amended_witness :
    (⟨.str "UN Peacekeeping", .str "A", .int 2020,
      .str "Troops contributed to UN PKO", Cell.null,
      .str "personnel"⟩ : URow).year ≠ Cell.null ∧
    (⟨.str "UN Peacekeeping", .str "A", .int 2020,
      .str "Troops contributed to UN PKO", Cell.null,
      .str "personnel"⟩ : URow).country ≠ Cell.null ∧
    ∃ iC iY iT : Nat,
      ((["Country", "Year", "Troops_Total"] : List String).map
        strToLower).findIdx?
          (fun c => containsSub "country".toList c.toList) = some iC ∧
      ((["Country", "Year", "Troops_Total"] : List String).map
        strToLower).findIdx? (fun c => c == "year") = some iY ∧
      ((["Country", "Year", "Troops_Total"] : List String).map
        strToLower).findIdx?
          (fun c => containsSub "troop".toList c.toList &&
            !(containsSub "police".toList c.toList)) = some iT ∧
      (∃ t ∈ unpkTriples ⟨["Country", "Year", "Troops_Total"],
          [[.str "A", .int 2020, .str "x"]]⟩ iC iY iT,
        (t.1, t.2.1) = ((⟨.str "UN Peacekeeping", .str "A", .int 2020,
          .str "Troops contributed to UN PKO", Cell.null,
          .str "personnel"⟩ : URow).country,
         (⟨.str "UN Peacekeeping", .str "A", .int 2020,
          .str "Troops contributed to UN PKO", Cell.null,
          .str "personnel"⟩ : URow).year)) ∧
      (⟨.str "UN Peacekeeping", .str "A", .int 2020,
        .str "Troops contributed to UN PKO", Cell.null,
        .str "personnel"⟩ : URow).value =
        sumMinCount1 (((unpkTriples ⟨["Country", "Year", "Troops_Total"],
            [[.str "A", .int 2020, .str "x"]]⟩ iC iY iT).filter
          (fun t => (t.1, t.2.1) =
            ((⟨.str "UN Peacekeeping", .str "A", .int 2020,
              .str "Troops contributed to UN PKO", Cell.null,
              .str "personnel"⟩ : URow).country,
             (⟨.str "UN Peacekeeping", .str "A", .int 2020,
              .str "Troops contributed to UN PKO", Cell.null,
              .str "personnel"⟩ : URow).year))).map (fun t => t.2.2)) ∧
      ((⟨.str "UN Peacekeeping", .str "A", .int 2020,
        .str "Troops contributed to UN PKO", Cell.null,
        .str "personnel"⟩ : URow).value = Cell.null ↔
        ∀ t ∈ unpkTriples ⟨["Country", "Year", "Troops_Total"],
            [[.str "A", .int 2020, .str "x"]]⟩ iC iY iT,
          (t.1, t.2.1) = ((⟨.str "UN Peacekeeping", .str "A", .int 2020,
            .str "Troops contributed to UN PKO", Cell.null,
            .str "personnel"⟩ : URow).country,
           (⟨.str "UN Peacekeeping", .str "A", .int 2020,
            .str "Troops contributed to UN PKO", Cell.null,
            .str "personnel"⟩ : URow).year) →
            Cell.numVal t.2.2 = none) :=
  unpk_rows_amended ⟨["Country", "Year", "Troops_Total"],
      [[.str "A", .int 2020, .str "x"]]⟩
    [⟨.str "UN Peacekeeping", .str "A", .int 2020,
      .str "Troops contributed to UN PKO", Cell.null, .str "personnel"⟩]
    rfl _ (by simp)

/-- C6: the top-N-latest-year selection, for any table, metric and `n`:
an empty metric match yields an empty series; the result has at most `n`
rows; every result row belongs to the metric slice and carries the
maximum year present there; the result is sorted ascending by value; and
any latest-year row left out has value at most that of every row kept
(the kept rows are the `n` largest). -/
theorem topn_latest_year_spec (tbl : List ORow) (metric : String)
    (n : Nat) :
    (tbl.filter (fun r => r.metric = metric) = [] →
      topn tbl metric n = []) ∧
    (topn tbl metric n).length ≤ n ∧
    (∀ r ∈ topn tbl metric n,
      r ∈ tbl.filter (fun r => r.metric = metric) ∧
      r.year = latestYear (tbl.filter (fun r => r.metric = metric))) ∧
    List.Sorted valLe (topn tbl metric n) ∧
    (∀ q ∈ (tbl.filter (fun r => r.metric = metric)).filter
        (fun r => r.year = latestYear (tbl.filter
          (fun r => r.metric = metric))),
      q ∉ topn tbl metric n →
        ∀ k ∈ topn tbl metric n, q.value ≤ k.value) := by
  by_cases hfe : (tbl.filter (fun r => r.metric = metric)).isEmpty = true
  · have ht : topn tbl metric n = [] := by
      simp only [topn]
      rw [if_pos hfe]
    rw [ht]
    refine ⟨fun _ => rfl, Nat.zero_le n, fun r hr => absurd hr
      (List.not_mem_nil r), List.sorted_nil, fun q _ _ k hk =>
        absurd hk (List.not_mem_nil k)⟩
  · cases hy : latestYear (tbl.filter (fun r => r.metric = metric)) with
    | none =>
        have ht : topn tbl metric n = [] := by
          simp only [topn]
          rw [if_neg hfe, hy]
        rw [ht]
        refine ⟨fun _ => rfl, Nat.zero_le n, fun r hr => absurd hr
          (List.not_mem_nil r), List.sorted_nil, fun q _ _ k hk =>
            absurd hk (List.not_mem_nil k)⟩
    | some y =>
        have ht : topn tbl metric n =
            List.insertionSort valLe
              (((List.insertionSort valGe
                ((tbl.filter (fun r => r.metric = metric)).filter
                  (fun r => r.year = some y)))).take n) := by
          simp only [topn]
          rw [if_neg hfe, hy]
          rfl
        rw [ht]
        have hsortGe := List.sorted_insertionSort valGe
          ((tbl.filter (fun r => r.metric = metric)).filter
            (fun r => r.year = some y))
        refine ⟨?_, ?_, ?_, List.sorted_insertionSort valLe _, ?_⟩
        · intro hnil
          rw [hnil] at hfe
          exact absurd rfl hfe
        · rw [(List.perm_insertionSort valLe _).length_eq]
          exact List.length_take_le n _
        · intro r hr
          rw [List.mem_insertionSort] at hr
          have hr2 := List.take_subset n _ hr
          rw [List.mem_insertionSort] at hr2
          have hr3 := List.mem_filter.mp hr2
          exact ⟨hr3.1, of_decide_eq_true hr3.2⟩
        · intro q hq hnq k hk
          rw [List.mem_insertionSort] at hnq hk
          have hqs : q ∈ List.insertionSort valGe
              ((tbl.filter (fun r => r.metric = metric)).filter
                (fun r => r.year = some y)) := by
            rw [List.mem_insertionSort]
            exact hq
          rw [← List.take_append_drop n (List.insertionSort valGe
            ((tbl.filter (fun r => r.metric = metric)).filter
              (fun r => r.year = some y)))] at hqs
          rcases List.mem_append.mp hqs with hqt | hqd
          · exact absurd hqt hnq
          · exact hsortGe.rel_of_mem_take_of_mem_drop hk hqd

theorem usasRow_year (fy : Int) (v : ℚ) :
    (usasRow fy v).year = Cell.int fy := rfl

theorem usasRowForYear_some_shape (env : Int → Except PyErr J) (fy : Int)
    (r : URow) (h : usasRowForYear env fy = some r) :
    ∃ v : ℚ, r = usasRow fy v := by
  unfold usasRowForYear at h
  cases ho : usasObVal env fy with
  | none => rw [ho] at h; cases h
  | some v =>
      rw [ho] at h
      simp only [Option.map_some'] at h
      exact ⟨v, (Option.some.inj h).symm⟩

theorem usas_filterMap_year_count (env : Int → Except PyErr J)
    (l : List Int) (hl : l.Nodup) (y : Int) :
    ((l.filterMap (usasRowForYear env)).filter
      (fun r => r.year = Cell.int y)).length ≤ 1 := by
  induction l with
  | nil => simp
  | cons a l ih =>
      have hnd := List.nodup_cons.mp hl
      rw [List.filterMap_cons]
      cases hga : usasRowForYear env a with
      | none => exact ih hnd.2
      | some r =>
          obtain ⟨v, hv⟩ := usasRowForYear_some_shape env a r hga
          rw [List.filter_cons]
          by_cases hry : r.year = Cell.int y
          · rw [if_pos (by exact decide_eq_true hry)]
            have hay : a = y := by
              rw [hv, usasRow_year] at hry
              exact Cell.int.inj hry
            have hrest : (l.filterMap (usasRowForYear env)).filter
                (fun r => r.year = Cell.int y) = [] := by
              apply List.filter_eq_nil_iff.mpr
              intro r' hr'
              obtain ⟨fy', hfy', hg'⟩ := List.mem_filterMap.mp hr'
              obtain ⟨v', hv'⟩ :=
                usasRowForYear_some_shape env fy' r' hg'
              rw [hv', usasRow_year]
              simp only [decide_eq_true_eq]
              intro hyy
              have : fy' = y := Cell.int.inj hyy
              subst this
              subst hay
              exact hnd.1 hfy'
            rw [hrest]
            simp
          · rw [if_neg (by simpa using hry)]
            exact ih hnd.2

theorem fyRange_nodup (s e : Int) : (fyRange s e).Nodup := by
  unfold fyRange
  refine List.Nodup.map ?_ (List.nodup_range _)
  intro a b hab
  simp only [Int.ofNat_eq_coe] at hab
  omega

/-- C8: for any per-year responses and any fiscal-year range, the
agency-obligations adapter emits at most one row per fiscal year; every
emitted row is the row its year's loop iteration built (from the first —
in the data, the single — record with agency code `"097"`); a year whose
iteration produced nothing (no such record, or any raise) contributes no
row; and a failed request for a year makes that iteration produce
nothing.  One request per year in the range is structural: the result is
exactly `(fyRange start end).filterMap (usasRowForYear env)`. -/
theorem usaspending_one_row_per_year (env : Int → Except PyErr J)
    (startFy endFy : Int) (f : PFrame)
    (h : usaspending_dod_obligations env startFy endFy = .ok f) :
    (∀ fy : Int,
      (f.rowsOf.filter (fun r => r.year = Cell.int fy)).length ≤ 1) ∧
    (∀ r ∈ f.rowsOf, ∃ fy ∈ fyRange startFy endFy,
      usasRowForYear env fy = some r ∧ r.year = Cell.int fy) ∧
    (∀ fy : Int, usasRowForYear env fy = none →
      ∀ r ∈ f.rowsOf, r.year ≠ Cell.int fy) ∧
    (∀ (fy : Int) (e : PyErr), env fy = .error e →
      usasRowForYear env fy = none) := by
  have h4 : ∀ (fy : Int) (e : PyErr), env fy = .error e →
      usasRowForYear env fy = none := by
    intro fy e he
    simp [usasRowForYear, usasObVal, he]
  have hmem : ∀ r ∈ (fyRange startFy endFy).filterMap
      (usasRowForYear env), ∃ fy ∈ fyRange startFy endFy,
        usasRowForYear env fy = some r ∧ r.year = Cell.int fy := by
    intro r hr
    obtain ⟨fy, hfy, hg⟩ := List.mem_filterMap.mp hr
    obtain ⟨v, hv⟩ := usasRowForYear_some_shape env fy r hg
    exact ⟨fy, hfy, hg, by rw [hv, usasRow_year]⟩
  simp only [usaspending_dod_obligations] at h
  split at h
  · cases h
    exact ⟨fun fy => by simp [PFrame.rowsOf],
      fun r hr => absurd hr (List.not_mem_nil r),
      fun fy _ r hr => absurd hr (List.not_mem_nil r), h4⟩
  · split at h
    · cases h
    · rename_i rs hmap
      cases h
      have hall : ∀ r ∈ (fyRange startFy endFy).filterMap
          (usasRowForYear env), coerceURowYear r = .ok (id r) := by
        intro r hr
        obtain ⟨fy, _, hg⟩ := List.mem_filterMap.mp hr
        obtain ⟨v, hv⟩ := usasRowForYear_some_shape env fy r hg
        subst hv
        rfl
      have hid := mapMEx_ok_of_all_ok coerceURowYear id _ hall
      rw [List.map_id] at hid
      rw [hid] at hmap
      have hrs : rs = (fyRange startFy endFy).filterMap
          (usasRowForYear env) := (Except.ok.inj hmap).symm
      subst hrs
      refine ⟨?_, hmem, ?_, h4⟩
      · intro fy
        exact usas_filterMap_year_count env _
          (fyRange_nodup startFy endFy) fy
      · intro fy hnone r hr hyy
        obtain ⟨fy', _, hg', hy'⟩ := hmem r hr
        rw [hyy] at hy'
        have : fy = fy' := Cell.int.inj hy'
        subst this
        rw [hnone] at hg'
        cases hg'

/-- The per-year responses used by the C8 witness: fiscal year 2016
returns a results list whose second record has agency code `"097"`;
other years fail. -/
def usasEnvW : Int → Except PyErr J := fun fy =>
  if fy = 2016 then .ok (J.obj [("results", J.arr
    [J.obj [("toptier_code", J.str "001")],
     J.obj [("toptier_code", J.str "097"), ("obligations", J.num 55)]])])
  else .error .netError

/-- Witness for C8 at a concrete range 2016–2018: the returned single-row
frame has at most one row for fiscal year 2016. -/
theorem usaspending_one_row_per_year_witness :
    ((PFrame.table [usasRow 2016 55]).rowsOf.filter
      (fun r => r.year = Cell.int 2016)).length ≤ 1 :=
  (usaspending_one_row_per_year usasEnvW 2016 2018
    (PFrame.table [usasRow 2016 55]) rfl).1 2016
